import Mathlib

/-!
# Verification of the album-art normalization pipeline

Shallow embedding of `shrink-flac-embedded-art.py` (the album art
normalization pipeline) and of the manual-attention-log part of
`embed-art.py`, together with proofs about the claims of the
specification.

## Modelling conventions

* A FLAC track is represented by its list of embedded PICTURE blocks
  (`List Image`); an album directory by the list of its tracks
  (`List (List Image)`), in the order the directory glob returns them.
* Every external-tool invocation that can mutate the filesystem or that a
  claim counts (`convert`, `metaflac --remove`,
  `metaflac --import-picture-from`, log-file writes) is recorded as an
  `Event` in an execution trace.
* External-tool failures are modelled by an environment `Env` of failure
  flags: the Python code branches only on the boolean success of each
  `subprocess.run` wrapper, so each wrapper is embedded as a function of
  the environment.  Unexpected exceptions (anything the wrappers do not
  catch) are modelled by an `Interrupt` point; the `try/finally` cleanup
  of the temporary art files is embedded explicitly (`cleanup_temps`).
-/

namespace MLT

/-- Interlacing mode of an image as reported by `identify -verbose`
(`Interlace: None`, `Interlace: JPEG`, `Interlace: Line`, or any other
value). -/
inductive Interlace
  | none
  | jpeg
  | line
  | plane
  deriving DecidableEq

/-- An image: its pixel dimensions and its interlacing mode.  `width`
and `height` are what `identify -format "%w %h"` would report, the
interlacing what `identify -verbose` would report. -/
structure Image where
  width : Nat
  height : Nat
  interlace : Interlace
  deriving DecidableEq

/-- A recorded external-tool invocation or log write.
`resize args` is a run of ImageMagick `convert` with the given argument
list (`resize_to_baseline_jpeg`); `remove i` is
`metaflac --remove --block-type=PICTURE` on track `i`
(`remove_embedded_art`); `embed i` is `metaflac --import-picture-from`
on track `i` (`embed_art`); `logWrite s` is one line `s` written to a
manual-attention log file. -/
inductive Event
  | resize (args : List String)
  | remove (i : Nat)
  | embed (i : Nat)
  | logWrite (line : String)
  deriving DecidableEq

/-- Point at which an unexpected exception (one not caught by the
subprocess wrappers) is raised during `process_album_directory`, if any.
`atTrack i` raises just before track `i`'s removal step of the embed
loop. -/
inductive Interrupt
  | none
  | afterExtract
  | afterDims
  | afterResize
  | atTrack (i : Nat)
  deriving DecidableEq

/-- Behaviour of the external collaborator tools during one album's
processing.  Each field records whether the corresponding
`subprocess.run` wrapper fails, exactly as the Python code observes it
(the code branches only on these boolean outcomes). -/
structure Env where
  /-- `metaflac --export-picture-to` errors even though a picture block
  is present. -/
  extractToolFails : Bool
  /-- `identify -format "%w %h"` fails (or its output is unparsable) on
  the given image. -/
  dimsFails : Image → Bool
  /-- `identify -verbose` fails on the given image. -/
  verboseFails : Image → Bool
  /-- Result of `convert ... -resize 150x150 -quality 85 -interlace none`
  on the given image: `some` the produced image, or `none` on tool
  failure. -/
  resizeResult : Image → Option Image
  /-- `metaflac --remove --block-type=PICTURE` fails on track `i`. -/
  removeFails : Nat → Bool
  /-- `metaflac --import-picture-from` fails on track `i`. -/
  embedFails : Nat → Bool
  /-- Unexpected-exception point, if any. -/
  interrupt : Interrupt

/-- `extract_embedded_art` (lines 9-28): export the first embedded
picture of a track to a file.  `art` is the track's first picture block
(`metaflac` exports the first PICTURE block); the call fails when there
is no picture or the tool errors, and the two are indistinguishable. -/
def extract_embedded_art (env : Env) (art : Option Image) : Option Image :=
  match art with
  | Option.none => Option.none
  | some img => if env.extractToolFails then Option.none else some img

/-- `get_image_dimensions` (lines 31-51): `identify -format "%w %h"`,
returning `none` when the tool fails. -/
def get_image_dimensions (env : Env) (img : Image) : Option (Nat × Nat) :=
  if env.dimsFails img then Option.none else some (img.width, img.height)

/-- `is_baseline_jpeg` (lines 54-79): true iff `identify -verbose`
succeeds and reports `Interlace: None`; any other report and any tool
failure yield `false` ("assume it needs processing"). -/
def is_baseline_jpeg (env : Env) (img : Image) : Bool :=
  if env.verboseFails img then false
  else
    match img.interlace with
    | Interlace.none => true
    | Interlace.jpeg => false
    | Interlace.line => false
    | Interlace.plane => false

/-- The argument list of the ImageMagick `convert` invocation issued by
`resize_to_baseline_jpeg` (lines 96-110), with the temp-file basenames
`extracted` and `resized.jpg` used by `process_album_directory`. -/
def convert_args (size : Nat) : List String :=
  ["convert", "extracted", "-resize", toString size ++ "x" ++ toString size,
   "-quality", "85", "-interlace", "none", "resized.jpg"]

/-- `resize_to_baseline_jpeg` (lines 82-114): run `convert` on the
extracted image; `none` on tool failure, otherwise the produced image. -/
def resize_to_baseline_jpeg (env : Env) (img : Image) : Option Image :=
  env.resizeResult img

/-- The skip condition of `process_album_directory` lines 197-208: the
extracted art has known dimensions with `max(width, height) ≤ 150` and
is a baseline JPEG.  (`is_baseline_jpeg` is only consulted when the
dimension bound holds, as in the source.) -/
def shouldSkip (env : Env) (img : Image) : Bool :=
  match get_image_dimensions env img with
  | some wh => decide (max wh.1 wh.2 ≤ 150) && is_baseline_jpeg env img
  | Option.none => false

/-- The per-album decision, following the branch structure of
`process_album_directory` lines 192-214 with the decision names of the
specification (§4.2). -/
inductive Decision
  | noTracks
  | skipNoArt
  | skipCompliant
  | convertOnly
  | resizeAndConvert
  | unknownProcess
  deriving DecidableEq

/-- Classification of an album, mirroring the branch structure of
`process_album_directory` lines 192-214: extraction failure ⟶
`skipNoArt`; dimensions known and `≤ 150` ⟶ `skipCompliant` or
`convertOnly` according to `is_baseline_jpeg`; dimensions known and
`> 150` ⟶ `resizeAndConvert`; dimensions unknown ⟶ `unknownProcess`
("will process anyway"). -/
def classify (env : Env) (tracks : List (List Image)) : Decision :=
  match tracks with
  | [] => Decision.noTracks
  | t0 :: _ =>
    match extract_embedded_art env t0.head? with
    | Option.none => Decision.skipNoArt
    | some img =>
      match get_image_dimensions env img with
      | some wh =>
        if max wh.1 wh.2 ≤ 150 then
          if is_baseline_jpeg env img then Decision.skipCompliant
          else Decision.convertOnly
        else Decision.resizeAndConvert
      | Option.none => Decision.unknownProcess

/-- Result of the per-track loop of `process_album_directory`
(lines 227-250): the updated track states, `some (processed, errors)` on
normal completion (`none` when an interrupt aborted the loop), and the
trace of `metaflac` invocations. -/
structure LoopOut where
  tracks : List (List Image)
  result : Option (Nat × Nat)
  trace : List Event

/-- The per-track loop of `process_album_directory` (lines 231-245),
processing the tracks from index `i` on: remove the old art, then embed
the canonical asset; failure of either step counts the track as an
error and moves on (`continue`), so an embed is only attempted after a
successful removal, and a track whose removal succeeded but whose embed
failed is left with no art at all. -/
def embed_tracks (env : Env) (canonical : Image) :
    Nat → List (List Image) → LoopOut
  | _, [] => ⟨[], some (0, 0), []⟩
  | i, t :: ts =>
    if env.interrupt = Interrupt.atTrack i then ⟨t :: ts, Option.none, []⟩
    else if env.removeFails i then
      let o := embed_tracks env canonical (i + 1) ts
      ⟨t :: o.tracks, o.result.map (fun pe => (pe.1, pe.2 + 1)),
        Event.remove i :: o.trace⟩
    else if env.embedFails i then
      let o := embed_tracks env canonical (i + 1) ts
      ⟨[] :: o.tracks, o.result.map (fun pe => (pe.1, pe.2 + 1)),
        Event.remove i :: Event.embed i :: o.trace⟩
    else
      let o := embed_tracks env canonical (i + 1) ts
      ⟨[canonical] :: o.tracks, o.result.map (fun pe => (pe.1 + 1, pe.2)),
        Event.remove i :: Event.embed i :: o.trace⟩

/-- Outcome of one `process_album_directory` call: final track states,
`some (processed, skipped, errors)` on a normal return (`none` when an
exception propagated to the caller), the trace of recorded invocations,
and whether the extracted / resized temporary files still exist after
the `finally` block. -/
structure Outcome where
  tracks : List (List Image)
  result : Option (Nat × Nat × Nat)
  trace : List Event
  extractedTmp : Bool
  resizedTmp : Bool

/-- The `finally` block of `process_album_directory` (lines 252-257):
`if path.exists(): path.unlink()` for each of the two temporary art
files. -/
def cleanup_temps (extractedTmp resizedTmp : Bool) : Bool × Bool :=
  (if extractedTmp then false else extractedTmp,
   if resizedTmp then false else resizedTmp)

/-- The `try` block of `process_album_directory` (lines 191-250) for a
nonempty album `t0 :: rest`: extract from the first track, decide, and
either skip, report the dry run, or resize once and run the embed loop.
The temp-file flags record which temporary files exist when the block
exits (the extracted file exists from a successful extraction on, the
resized file from a successful resize on). -/
def process_album_body (env : Env) (dryRun : Bool)
    (t0 : List Image) (rest : List (List Image)) : Outcome :=
  let n := (t0 :: rest).length
  match extract_embedded_art env t0.head? with
  | Option.none => ⟨t0 :: rest, some (0, n, 0), [], false, false⟩
  | some img =>
    if env.interrupt = Interrupt.afterExtract then
      ⟨t0 :: rest, Option.none, [], true, false⟩
    else if env.interrupt = Interrupt.afterDims then
      ⟨t0 :: rest, Option.none, [], true, false⟩
    else if shouldSkip env img then
      ⟨t0 :: rest, some (0, n, 0), [], true, false⟩
    else if dryRun then
      ⟨t0 :: rest, some (n, 0, 0), [], true, false⟩
    else
      match resize_to_baseline_jpeg env img with
      | Option.none =>
        ⟨t0 :: rest, some (0, 0, n), [Event.resize (convert_args 150)],
          true, false⟩
      | some canonical =>
        if env.interrupt = Interrupt.afterResize then
          ⟨t0 :: rest, Option.none, [Event.resize (convert_args 150)],
            true, true⟩
        else
          let o := embed_tracks env canonical 0 (t0 :: rest)
          ⟨o.tracks, o.result.map (fun pe => (pe.1, 0, pe.2)),
            Event.resize (convert_args 150) :: o.trace, true, true⟩

/-- `process_album_directory` (lines 164-261): the empty-directory early
return happens before the temporary directory is even created; every
other path runs the `try` body and then the `finally` cleanup of the two
temporary art files. -/
def process_album_directory (env : Env) (dryRun : Bool)
    (tracks : List (List Image)) : Outcome :=
  match tracks with
  | [] => ⟨[], some (0, 0, 0), [], false, false⟩
  | t0 :: rest =>
    let body := process_album_body env dryRun t0 rest
    ⟨body.tracks, body.result, body.trace,
      (cleanup_temps body.extractedTmp body.resizedTmp).1,
      (cleanup_temps body.extractedTmp body.resizedTmp).2⟩

/-- Is this event a `convert` (resize) invocation? -/
def isResizeEvent : Event → Bool
  | Event.resize _ => true
  | _ => false

/-- Is this event a `metaflac --remove` invocation? -/
def isRemoveEvent : Event → Bool
  | Event.remove _ => true
  | _ => false

/-- Is this event a `metaflac --import-picture-from` invocation? -/
def isEmbedEvent : Event → Bool
  | Event.embed _ => true
  | _ => false

/-- Number of `convert` (resize) invocations in a trace. -/
def countResize (tr : List Event) : Nat := (tr.filter isResizeEvent).length

/-- Number of `metaflac --remove` invocations in a trace. -/
def countRemove (tr : List Event) : Nat := (tr.filter isRemoveEvent).length

/-- Number of `metaflac --import-picture-from` invocations in a trace. -/
def countEmbed (tr : List Event) : Nat := (tr.filter isEmbedEvent).length

/-- The lines written to a manual-attention log during a trace, in
order. -/
def logLines (tr : List Event) : List String :=
  tr.filterMap fun e =>
    match e with
    | Event.logWrite s => some s
    | _ => Option.none

/-! ## Directory scanner (`main`, lines 264-299) -/

/-- A file on disk: the path of its immediate parent directory and its
own name. -/
structure FsFile where
  dir : String
  name : String
  deriving DecidableEq

/-- `Path.glob`/`Path.rglob` matching of a pattern `*<suffix>`: the name
ends with the suffix, case-sensitively, and is not a hidden file (glob's
`*` does not match a leading dot). -/
def glob_match (suffix name : String) : Bool :=
  suffix.data.isSuffixOf name.data && name.data.head? != some '.'

/-- Does the name have the `.flac` extension under a genuinely
case-insensitive match (any casing), as the specification's scanner
contract describes? -/
def has_flac_ext_ci (name : String) : Bool :=
  ".flac".data.isSuffixOf (name.data.map Char.toLower)

/-- The scan of `main` lines 272-274: `rglob` for exactly the three
patterns `*.flac`, `*.FLAC`, `*.Flac`, in that order. -/
def find_flac_files (files : List FsFile) : List FsFile :=
  files.filter (fun f => glob_match ".flac" f.name)
    ++ files.filter (fun f => glob_match ".FLAC" f.name)
    ++ files.filter (fun f => glob_match ".Flac" f.name)

/-- Lexicographic (code-point) comparison of character lists: the order
Python uses when sorting the album paths. -/
def charsLe : List Char → List Char → Bool
  | [], _ => true
  | _ :: _, [] => false
  | a :: as, b :: bs =>
    if a = b then charsLe as bs else decide (a.toNat < b.toNat)

/-- Path comparison for `sorted(album_dirs)`. -/
def pathLe (a b : String) : Bool := charsLe a.data b.data

/-- The album-directory list of `main` lines 281-283 and 299: the
distinct parent directories of the scanned files, iterated in sorted
order (`sorted(album_dirs)`). -/
def album_dirs (files : List FsFile) : List String :=
  List.insertionSort (fun a b => pathLe a b = true)
    ((find_flac_files files).map FsFile.dir).dedup

/-- The working set of one album, as built by `process_album_directory`
lines 179-181: the directory's own files matching `*.flac` or `*.FLAC`
(and only those two patterns). -/
def album_flac_files (files : List FsFile) (dir : String) : List FsFile :=
  (files.filter (fun f => f.dir == dir && glob_match ".flac" f.name))
    ++ (files.filter (fun f => f.dir == dir && glob_match ".FLAC" f.name))

/-! ## The manual-attention log of `embed-art.py` -/

/-- Tool behaviour for one album processed by `embed-art.py`:
the observed result of `has_embedded_art` for track `i` (the code
returns `True` on tool error, deliberately leaving the file alone), and
whether `embed_cover` succeeds on track `i`. -/
structure EaEnv where
  hasArt : Nat → Bool
  embedOk : Nat → Bool

/-- The cover-image candidate names of `embed-art.py` lines 151-162, in
search order. -/
def cover_candidates : List String :=
  ["cover.jpg", "Cover.jpg", "cover.JPG", "cover.png", "Cover.png",
   "cover.PNG", "folder.jpg", "Folder.jpg", "folder.png", "Folder.png"]

/-- The log lines written by `embed-art.py`'s `process_album_directory`
(lines 129-182) for one album: `flacs` are the album's FLAC paths in
glob order, `dirFiles` the names present in the album directory.  A
track's path is logged when the track lacks embedded art and either no
cover candidate exists in the directory, or a cover exists but embedding
fails for that track. -/
def ea_process_album_directory (env : EaEnv) (flacs : List String)
    (dirFiles : List String) : List String :=
  if flacs.isEmpty then []
  else
    let withoutArt := flacs.enum.filter fun p => !env.hasArt p.1
    if withoutArt.isEmpty then []
    else
      match cover_candidates.find? (fun c => dirFiles.contains c) with
      | some _ => (withoutArt.filter fun p => !env.embedOk p.1).map Prod.snd
      | Option.none => withoutArt.map Prod.snd

/-! ## Helper lemmas -/

theorem cleanup_temps_eq (a b : Bool) : cleanup_temps a b = (false, false) := by
  cases a <;> cases b <;> rfl

/-- For a nonempty album, `process_album_directory` is the `try` body
followed by the `finally` cleanup, which always deletes both temporary
files. -/
theorem process_cons (env : Env) (dryRun : Bool) (t0 : List Image)
    (rest : List (List Image)) :
    process_album_directory env dryRun (t0 :: rest) =
      ⟨(process_album_body env dryRun t0 rest).tracks,
        (process_album_body env dryRun t0 rest).result,
        (process_album_body env dryRun t0 rest).trace, false, false⟩ := by
  simp [process_album_directory, cleanup_temps_eq]

@[simp] theorem countResize_nil : countResize [] = 0 := rfl

@[simp] theorem countResize_resize (args : List String) (tr : List Event) :
    countResize (Event.resize args :: tr) = countResize tr + 1 := by
  simp [countResize, isResizeEvent, List.filter_cons]

@[simp] theorem countResize_remove (i : Nat) (tr : List Event) :
    countResize (Event.remove i :: tr) = countResize tr := by
  simp [countResize, isResizeEvent, List.filter_cons]

@[simp] theorem countResize_embed (i : Nat) (tr : List Event) :
    countResize (Event.embed i :: tr) = countResize tr := by
  simp [countResize, isResizeEvent, List.filter_cons]

@[simp] theorem countRemove_nil : countRemove [] = 0 := rfl

@[simp] theorem countRemove_resize (args : List String) (tr : List Event) :
    countRemove (Event.resize args :: tr) = countRemove tr := by
  simp [countRemove, isRemoveEvent, List.filter_cons]

@[simp] theorem countRemove_remove (i : Nat) (tr : List Event) :
    countRemove (Event.remove i :: tr) = countRemove tr + 1 := by
  simp [countRemove, isRemoveEvent, List.filter_cons]

@[simp] theorem countRemove_embed (i : Nat) (tr : List Event) :
    countRemove (Event.embed i :: tr) = countRemove tr := by
  simp [countRemove, isRemoveEvent, List.filter_cons]

@[simp] theorem countEmbed_nil : countEmbed [] = 0 := rfl

@[simp] theorem countEmbed_resize (args : List String) (tr : List Event) :
    countEmbed (Event.resize args :: tr) = countEmbed tr := by
  simp [countEmbed, isEmbedEvent, List.filter_cons]

@[simp] theorem countEmbed_remove (i : Nat) (tr : List Event) :
    countEmbed (Event.remove i :: tr) = countEmbed tr := by
  simp [countEmbed, isEmbedEvent, List.filter_cons]

@[simp] theorem countEmbed_embed (i : Nat) (tr : List Event) :
    countEmbed (Event.embed i :: tr) = countEmbed tr + 1 := by
  simp [countEmbed, isEmbedEvent, List.filter_cons]

@[simp] theorem logLines_nil : logLines [] = [] := rfl

@[simp] theorem logLines_resize (args : List String) (tr : List Event) :
    logLines (Event.resize args :: tr) = logLines tr := by
  simp [logLines, List.filterMap_cons]

@[simp] theorem logLines_remove (i : Nat) (tr : List Event) :
    logLines (Event.remove i :: tr) = logLines tr := by
  simp [logLines, List.filterMap_cons]

@[simp] theorem logLines_embed (i : Nat) (tr : List Event) :
    logLines (Event.embed i :: tr) = logLines tr := by
  simp [logLines, List.filterMap_cons]

/-- Trace bounds for the per-track loop: it never runs `convert`, runs
`metaflac --remove` and `metaflac --import-picture-from` at most once
per remaining track, and writes no log lines. -/
theorem embed_tracks_trace (env : Env) (c : Image) (i : Nat)
    (ts : List (List Image)) :
    countResize (embed_tracks env c i ts).trace = 0 ∧
    countRemove (embed_tracks env c i ts).trace ≤ ts.length ∧
    countEmbed (embed_tracks env c i ts).trace ≤ ts.length ∧
    logLines (embed_tracks env c i ts).trace = [] := by
  induction ts generalizing i with
  | nil => simp [embed_tracks]
  | cons t ts ih =>
    obtain ⟨ih1, ih2, ih3, ih4⟩ := ih (i + 1)
    simp only [embed_tracks]
    split
    · simp
    · split
      · simp only [countResize_remove, countRemove_remove, countEmbed_remove,
          logLines_remove, List.length_cons]
        exact ⟨ih1, by omega, by omega, ih4⟩
      · split <;>
        · simp only [countResize_remove, countResize_embed,
            countRemove_remove, countRemove_embed, countEmbed_remove,
            countEmbed_embed, logLines_remove, logLines_embed,
            List.length_cons]
          exact ⟨ih1, by omega, by omega, ih4⟩

/-- On normal completion the per-track loop accounts for every remaining
track: processed + errors = number of tracks. -/
theorem embed_tracks_sum (env : Env) (c : Image) (i : Nat)
    (ts : List (List Image)) (p e : Nat)
    (h : (embed_tracks env c i ts).result = some (p, e)) :
    p + e = ts.length := by
  induction ts generalizing i p e with
  | nil =>
    simp only [embed_tracks, Option.some.injEq, Prod.mk.injEq] at h
    simp [List.length_nil]
    omega
  | cons t ts ih =>
    simp only [embed_tracks] at h
    split at h
    · simp at h
    · split at h
      · cases ho : (embed_tracks env c (i + 1) ts).result with
        | none => simp [ho] at h
        | some pe =>
          simp only [ho, Option.map_some'] at h
          simp only [Option.some.injEq, Prod.mk.injEq] at h
          have := ih (i + 1) pe.1 pe.2 (by rw [ho])
          simp only [List.length_cons]
          omega
      · split at h <;>
        · cases ho : (embed_tracks env c (i + 1) ts).result with
          | none => simp [ho] at h
          | some pe =>
            simp only [ho, Option.map_some'] at h
            simp only [Option.some.injEq, Prod.mk.injEq] at h
            have := ih (i + 1) pe.1 pe.2 (by rw [ho])
            simp only [List.length_cons]
            omega

/-- The per-track loop never writes a log line. -/
@[simp] theorem embed_tracks_logLines (env : Env) (c : Image) (i : Nat)
    (ts : List (List Image)) :
    logLines (embed_tracks env c i ts).trace = [] :=
  (embed_tracks_trace env c i ts).2.2.2

/-- When no interrupt occurs and neither `metaflac` step ever fails, the
loop replaces every track's pictures with exactly the canonical asset. -/
theorem embed_tracks_all_ok (env : Env) (c : Image)
    (hI : env.interrupt = Interrupt.none)
    (hR : ∀ j, env.removeFails j = false)
    (hE : ∀ j, env.embedFails j = false) (i : Nat)
    (ts : List (List Image)) :
    (embed_tracks env c i ts).tracks = ts.map (fun _ => [c]) := by
  induction ts generalizing i with
  | nil => simp [embed_tracks]
  | cons t ts ih =>
    simp only [embed_tracks, hI, hR, hE]
    simp [ih (i + 1)]

theorem process_result_cons (env : Env) (dryRun : Bool) (t0 : List Image)
    (rest : List (List Image)) :
    (process_album_directory env dryRun (t0 :: rest)).result =
      (process_album_body env dryRun t0 rest).result := by
  rw [process_cons]

theorem process_trace_cons (env : Env) (dryRun : Bool) (t0 : List Image)
    (rest : List (List Image)) :
    (process_album_directory env dryRun (t0 :: rest)).trace =
      (process_album_body env dryRun t0 rest).trace := by
  rw [process_cons]

theorem process_tracks_cons (env : Env) (dryRun : Bool) (t0 : List Image)
    (rest : List (List Image)) :
    (process_album_directory env dryRun (t0 :: rest)).tracks =
      (process_album_body env dryRun t0 rest).tracks := by
  rw [process_cons]

/-- Branch lemma: extraction failure (lines 192-195) returns
`(0, len(flac_files), 0)` with no recorded invocations and unchanged
tracks. -/
theorem body_noart (env : Env) (dryRun : Bool) (t0 : List Image)
    (rest : List (List Image))
    (h : extract_embedded_art env t0.head? = Option.none) :
    process_album_body env dryRun t0 rest =
      ⟨t0 :: rest, some (0, (t0 :: rest).length, 0), [], false, false⟩ := by
  simp [process_album_body, h]

/-- Branch lemma: compliant art (lines 203-208) returns
`(0, len(flac_files), 0)` with no recorded invocations. -/
theorem body_skip (env : Env) (dryRun : Bool) (t0 : List Image)
    (rest : List (List Image)) (img : Image)
    (hI : env.interrupt = Interrupt.none)
    (hHead : extract_embedded_art env t0.head? = some img)
    (hS : shouldSkip env img = true) :
    process_album_body env dryRun t0 rest =
      ⟨t0 :: rest, some (0, (t0 :: rest).length, 0), [], true, false⟩ := by
  simp [process_album_body, hHead, hI, hS]

/-- Branch lemma: resize failure (lines 222-225) returns
`(0, 0, len(flac_files))` after the single `convert` invocation. -/
theorem body_resize_fail (env : Env) (t0 : List Image)
    (rest : List (List Image)) (img : Image)
    (hI : env.interrupt = Interrupt.none)
    (hHead : extract_embedded_art env t0.head? = some img)
    (hS : shouldSkip env img = false)
    (hR : env.resizeResult img = Option.none) :
    process_album_body env false t0 rest =
      ⟨t0 :: rest, some (0, 0, (t0 :: rest).length),
        [Event.resize (convert_args 150)], true, false⟩ := by
  simp [process_album_body, hHead, hI, hS, resize_to_baseline_jpeg, hR]

/-- Branch lemma: the processing path (lines 222-250) — one `convert`
invocation followed by the per-track loop. -/
theorem body_go (env : Env) (t0 : List Image) (rest : List (List Image))
    (img canonical : Image)
    (hI : env.interrupt = Interrupt.none)
    (hHead : extract_embedded_art env t0.head? = some img)
    (hS : shouldSkip env img = false)
    (hR : env.resizeResult img = some canonical) :
    process_album_body env false t0 rest =
      ⟨(embed_tracks env canonical 0 (t0 :: rest)).tracks,
        (embed_tracks env canonical 0 (t0 :: rest)).result.map
          (fun pe => (pe.1, 0, pe.2)),
        Event.resize (convert_args 150) ::
          (embed_tracks env canonical 0 (t0 :: rest)).trace,
        true, true⟩ := by
  simp [process_album_body, hHead, hI, hS, resize_to_baseline_jpeg, hR]

/-! ## Concrete instances used by witnesses and counterexamples -/

/-- 1200×1200 progressive art, as in the spec's concrete scenario A. -/
def imgBig : Image := ⟨1200, 1200, Interlace.jpeg⟩

/-- A 150×150 baseline JPEG, the canonical asset the resize step is
expected to produce. -/
def imgCanonical : Image := ⟨150, 150, Interlace.none⟩

/-- 120×120 progressive art: within the 150px bound but not
baseline-encoded. -/
def imgSmallProg : Image := ⟨120, 120, Interlace.jpeg⟩

/-- The well-behaved environment: no tool failures, the resize step
produces `imgCanonical`, no interrupts. -/
def envOk : Env :=
  ⟨false, fun _ => false, fun _ => false, fun _ => some imgCanonical,
    fun _ => false, fun _ => false, Interrupt.none⟩

/-- An environment where the `convert` (normalization) step fails. -/
def envResizeFail : Env := { envOk with resizeResult := fun _ => Option.none }

/-! ## Claims -/

/-- C9: for every album and every exit path of its processing (success,
skip decision, normalize failure, or an interrupt raised mid-processing),
the extracted asset and the canonical (resized) asset are deleted before
the pipeline moves to the next album: the `finally` cleanup leaves both
temporary files non-existent on every path, and the empty-directory
early return precedes the creation of any temporary file. -/
theorem C9_temp_assets_cleaned (env : Env) (dryRun : Bool)
    (tracks : List (List Image)) :
    (process_album_directory env dryRun tracks).extractedTmp = false ∧
    (process_album_directory env dryRun tracks).resizedTmp = false := by
  cases tracks with
  | nil => exact ⟨rfl, rfl⟩
  | cons t0 rest => rw [process_cons]; exact ⟨rfl, rfl⟩

/-- C10: every invocation of per-album processing that returns normally
(including dry-run and every skip/error branch) satisfies
processed + skipped + errored = number of tracks found in the album
directory. -/
theorem C10_counts_partition (env : Env) (dryRun : Bool)
    (tracks : List (List Image)) (p s e : Nat)
    (h : (process_album_directory env dryRun tracks).result = some (p, s, e)) :
    p + s + e = tracks.length := by
  cases tracks with
  | nil =>
    simp only [process_album_directory, Option.some.injEq,
      Prod.mk.injEq] at h
    simp only [List.length_nil]
    omega
  | cons t0 rest =>
    rw [process_result_cons] at h
    simp only [process_album_body] at h
    split at h
    · simp only [Option.some.injEq, Prod.mk.injEq] at h
      omega
    · split at h
      · simp at h
      · split at h
        · simp at h
        · split at h
          · simp only [Option.some.injEq, Prod.mk.injEq] at h
            omega
          · split at h
            · simp only [Option.some.injEq, Prod.mk.injEq] at h
              omega
            · split at h
              · simp only [Option.some.injEq, Prod.mk.injEq] at h
                omega
              · split at h
                · simp at h
                · rename_i canonical _ _
                  cases ho : (embed_tracks env canonical 0 (t0 :: rest)).result
                    with
                  | none => rw [ho] at h; simp at h
                  | some pe =>
                    rw [ho] at h
                    simp only [Option.map_some', Option.some.injEq,
                      Prod.mk.injEq] at h
                    have hsum := embed_tracks_sum env canonical 0
                      (t0 :: rest) pe.1 pe.2 (by rw [ho])
                    simp only [List.length_cons] at hsum ⊢
                    omega

/-- Witness for C10 at a concrete input: a two-track album fully
processed gives `2 + 0 + 0 = 2`. -/
theorem C10_witness :
    (process_album_directory envOk false [[imgBig], [imgBig]]).result =
      some (2, 0, 0) ∧ (2 : Nat) + 0 + 0 = 2 := by
  refine ⟨by decide, C10_counts_partition envOk false [[imgBig], [imgBig]]
    2 0 0 (by decide)⟩

/-- C3: in dry-run (plan) mode, the remove, embed, and resize operations
are never invoked, and the pictures embedded in every track are
identical before and after (the plan phase mutates nothing, on every
branch, including interrupted runs). -/
theorem C3_dry_run_pure (env : Env) (tracks : List (List Image)) :
    countResize (process_album_directory env true tracks).trace = 0 ∧
    countRemove (process_album_directory env true tracks).trace = 0 ∧
    countEmbed (process_album_directory env true tracks).trace = 0 ∧
    (process_album_directory env true tracks).tracks = tracks := by
  cases tracks with
  | nil => exact ⟨rfl, rfl, rfl, rfl⟩
  | cons t0 rest =>
    rw [process_cons]
    simp only [process_album_body]
    split
    · simp
    · split
      · simp
      · split
        · simp
        · split
          · simp
          · simp

/-- C4: when extracting the embedded picture from the first track fails
(no art or tool error), every track is counted as skipped, none as
processed or errored, and no normalization, removal or embedding is
attempted (the trace is empty) and no track is modified. -/
theorem C4_extraction_failure_skips_all (env : Env) (dryRun : Bool)
    (t0 : List Image) (rest : List (List Image))
    (hFail : extract_embedded_art env t0.head? = Option.none) :
    (process_album_directory env dryRun (t0 :: rest)).result =
      some (0, (t0 :: rest).length, 0) ∧
    (process_album_directory env dryRun (t0 :: rest)).trace = [] ∧
    (process_album_directory env dryRun (t0 :: rest)).tracks = t0 :: rest := by
  rw [process_cons, body_noart env dryRun t0 rest hFail]
  exact ⟨rfl, rfl, rfl⟩

/-- Witness for C4 at a concrete input: a one-track album whose track
has no embedded picture is classified skip, with an empty trace. -/
theorem C4_witness :
    extract_embedded_art envOk ([] : List Image).head? = Option.none ∧
    (process_album_directory envOk false [[]]).result = some (0, 1, 0) ∧
    (process_album_directory envOk false [[]]).trace = [] ∧
    (process_album_directory envOk false [[]]).tracks = [[]] := by
  refine ⟨rfl, ?_⟩
  have h := C4_extraction_failure_skips_all envOk false [] [] rfl
  simpa using h

/-- C6: when the normalization (`convert`) call fails, the album's
result counts every track as errored (errored = track count,
processed = 0, skipped = 0), and no `metaflac --remove` or
`metaflac --import-picture-from` call is issued for any track. -/
theorem C6_normalize_failure_all_errored (env : Env) (t0 : List Image)
    (rest : List (List Image)) (img : Image)
    (hI : env.interrupt = Interrupt.none)
    (hHead : extract_embedded_art env t0.head? = some img)
    (hS : shouldSkip env img = false)
    (hR : env.resizeResult img = Option.none) :
    (process_album_directory env false (t0 :: rest)).result =
      some (0, 0, (t0 :: rest).length) ∧
    countRemove (process_album_directory env false (t0 :: rest)).trace = 0 ∧
    countEmbed (process_album_directory env false (t0 :: rest)).trace = 0 ∧
    (process_album_directory env false (t0 :: rest)).tracks = t0 :: rest := by
  rw [process_cons, body_resize_fail env t0 rest img hI hHead hS hR]
  refine ⟨rfl, ?_, ?_, rfl⟩ <;> simp

/-- Witness for C6 at a concrete input: a two-track album whose resize
step fails reports `(0, 0, 2)` and no `metaflac` invocations. -/
theorem C6_witness :
    (process_album_directory envResizeFail false [[imgBig], [imgBig]]).result
      = some (0, 0, 2) ∧
    countRemove (process_album_directory envResizeFail false
      [[imgBig], [imgBig]]).trace = 0 ∧
    countEmbed (process_album_directory envResizeFail false
      [[imgBig], [imgBig]]).trace = 0 := by
  have h := C6_normalize_failure_all_errored envResizeFail [imgBig]
    [[imgBig]] imgBig rfl rfl (by decide) rfl
  exact ⟨h.1, h.2.1, h.2.2.1⟩

/-- C2: for every album that reaches the normalization step (extraction
succeeded, the album is not compliant-skipped, not dry-run, no
interrupt), the `convert` normalization is invoked exactly once for the
album regardless of its track count, and at most one
`metaflac --remove` and one `metaflac --import-picture-from` call is
issued per track: N tracks give 1 normalize call and at most N
remove+embed pairs. -/
theorem C2_normalize_once_embeds_bounded (env : Env) (t0 : List Image)
    (rest : List (List Image)) (img : Image)
    (hI : env.interrupt = Interrupt.none)
    (hHead : extract_embedded_art env t0.head? = some img)
    (hS : shouldSkip env img = false) :
    countResize (process_album_directory env false (t0 :: rest)).trace = 1 ∧
    countRemove (process_album_directory env false (t0 :: rest)).trace ≤
      (t0 :: rest).length ∧
    countEmbed (process_album_directory env false (t0 :: rest)).trace ≤
      (t0 :: rest).length := by
  cases hR : env.resizeResult img with
  | none =>
    rw [process_trace_cons, body_resize_fail env t0 rest img hI hHead hS hR]
    refine ⟨rfl, ?_, ?_⟩ <;> simp
  | some canonical =>
    rw [process_trace_cons, body_go env t0 rest img canonical hI hHead hS hR]
    obtain ⟨h1, h2, h3, -⟩ := embed_tracks_trace env canonical 0 (t0 :: rest)
    refine ⟨?_, ?_, ?_⟩
    · simp [h1]
    · simpa using h2
    · simpa using h3

/-- Witness for C2 at a concrete input: a fully processed two-track
album records exactly one `convert` call and two remove/embed pairs. -/
theorem C2_witness :
    countResize (process_album_directory envOk false
      [[imgBig], [imgBig]]).trace = 1 ∧
    countRemove (process_album_directory envOk false
      [[imgBig], [imgBig]]).trace ≤ 2 ∧
    countEmbed (process_album_directory envOk false
      [[imgBig], [imgBig]]).trace ≤ 2 := by
  have h := C2_normalize_once_embeds_bounded envOk [imgBig] [[imgBig]]
    imgBig rfl rfl (by decide)
  exact ⟨h.1, h.2.1, h.2.2⟩

/-- Counterexample to C1 as stated: an album whose art is 120×120 but
progressive is classified `ConvertOnly`, yet the pipeline does apply a
resize operation to it — the very same
`convert ... -resize 150x150 ... ` invocation used for oversized art
(the claim says no resize operation is applied to such an asset). -/
theorem C1_counterexample :
    classify envOk [[imgSmallProg]] = Decision.convertOnly ∧
    (process_album_directory envOk false [[imgSmallProg]]).trace =
      [Event.resize (convert_args 150), Event.remove 0, Event.embed 0] ∧
    "-resize" ∈ convert_args 150 ∧ "150x150" ∈ convert_args 150 := by
  decide

/-- C1 (amended): for every album whose extracted art has
max(width,height) ≤ 150 but is not baseline-encoded (and not dry-run,
no interrupt), the pipeline proceeds to normalization through the same
single `resize_to_baseline_jpeg` invocation used for oversized art —
ImageMagick `convert` with `-resize 150x150` among its arguments; there
is no separate convert-only path that omits the resize operation. -/
theorem C1_convert_only_still_resizes (env : Env) (t0 : List Image)
    (rest : List (List Image)) (img : Image) (w h : Nat)
    (hI : env.interrupt = Interrupt.none)
    (hHead : extract_embedded_art env t0.head? = some img)
    (hDims : get_image_dimensions env img = some (w, h))
    (hSmall : max w h ≤ 150)
    (hNotBase : is_baseline_jpeg env img = false) :
    countResize (process_album_directory env false (t0 :: rest)).trace = 1 ∧
    Event.resize (convert_args 150) ∈
      (process_album_directory env false (t0 :: rest)).trace ∧
    "-resize" ∈ convert_args 150 := by
  have hS : shouldSkip env img = false := by
    simp [shouldSkip, hDims, hNotBase]
  cases hR : env.resizeResult img with
  | none =>
    rw [process_trace_cons, body_resize_fail env t0 rest img hI hHead hS hR]
    exact ⟨rfl, by simp, by decide⟩
  | some canonical =>
    rw [process_trace_cons, body_go env t0 rest img canonical hI hHead hS hR]
    obtain ⟨h1, -, -, -⟩ := embed_tracks_trace env canonical 0 (t0 :: rest)
    exact ⟨by simp [h1], by simp, by decide⟩

/-- Witness for the amended C1 at a concrete input: the 120×120
progressive album triggers exactly one `convert` call, whose arguments
include `-resize`. -/
theorem C1_witness :
    countResize (process_album_directory envOk false
      [[imgSmallProg]]).trace = 1 ∧
    Event.resize (convert_args 150) ∈
      (process_album_directory envOk false [[imgSmallProg]]).trace ∧
    "-resize" ∈ convert_args 150 := by
  exact C1_convert_only_still_resizes envOk [imgSmallProg] [] imgSmallProg
    120 120 rfl rfl rfl (by decide) (by decide)

theorem shouldSkip_true_of (env : Env) (img : Image)
    (hD : env.dimsFails img = false) (hV : env.verboseFails img = false)
    (hB : max img.width img.height ≤ 150)
    (hIl : img.interlace = Interlace.none) :
    shouldSkip env img = true := by
  simp [shouldSkip, get_image_dimensions, hD, is_baseline_jpeg, hV, hIl, hB]

theorem classify_skipCompliant_of (env : Env) (c : Image)
    (rest' : List (List Image))
    (hE : env.extractToolFails = false)
    (hD : env.dimsFails c = false) (hV : env.verboseFails c = false)
    (hB : max c.width c.height ≤ 150)
    (hIl : c.interlace = Interlace.none) :
    classify env ([c] :: rest') = Decision.skipCompliant := by
  simp [classify, extract_embedded_art, hE, get_image_dimensions, hD,
    is_baseline_jpeg, hV, hIl, hB]

/-- C7: if a first (non-dry-run) run processes the album to completion
(extraction succeeds, the album is not already compliant, resize
succeeds, every remove/embed step succeeds, no interrupt) and the tools
behave deterministically with the resize step producing a
baseline image within the 150px bound, then a second run classifies the
album `Skip-AlreadyCompliant`, counts every track as skipped, issues no
remove/embed/resize call, and leaves every track unchanged. -/
theorem C7_idempotent_second_run_skips (env : Env) (t0 : List Image)
    (rest : List (List Image)) (img0 canonical : Image)
    (hI : env.interrupt = Interrupt.none)
    (hE : env.extractToolFails = false)
    (hHead : t0.head? = some img0)
    (hS : shouldSkip env img0 = false)
    (hR : env.resizeResult img0 = some canonical)
    (hRem : ∀ j, env.removeFails j = false)
    (hEmb : ∀ j, env.embedFails j = false)
    (hD : env.dimsFails canonical = false)
    (hV : env.verboseFails canonical = false)
    (hB : max canonical.width canonical.height ≤ 150)
    (hIl : canonical.interlace = Interlace.none) :
    classify env (process_album_directory env false (t0 :: rest)).tracks =
      Decision.skipCompliant ∧
    (process_album_directory env false
      (process_album_directory env false (t0 :: rest)).tracks).result =
      some (0, (t0 :: rest).length, 0) ∧
    countRemove (process_album_directory env false
      (process_album_directory env false (t0 :: rest)).tracks).trace = 0 ∧
    countEmbed (process_album_directory env false
      (process_album_directory env false (t0 :: rest)).tracks).trace = 0 ∧
    countResize (process_album_directory env false
      (process_album_directory env false (t0 :: rest)).tracks).trace = 0 ∧
    (process_album_directory env false
      (process_album_directory env false (t0 :: rest)).tracks).tracks =
      (process_album_directory env false (t0 :: rest)).tracks := by
  have hHead' : extract_embedded_art env t0.head? = some img0 := by
    simp [extract_embedded_art, hHead, hE]
  have hs1 : (process_album_directory env false (t0 :: rest)).tracks =
      [canonical] :: rest.map (fun _ => [canonical]) := by
    rw [process_tracks_cons, body_go env t0 rest img0 canonical hI hHead' hS hR]
    show (embed_tracks env canonical 0 (t0 :: rest)).tracks = _
    rw [embed_tracks_all_ok env canonical hI hRem hEmb 0 (t0 :: rest)]
    simp
  rw [hs1]
  have hskip : shouldSkip env canonical = true :=
    shouldSkip_true_of env canonical hD hV hB hIl
  have hHead2 :
      extract_embedded_art env ([canonical] : List Image).head? =
        some canonical := by
    simp [extract_embedded_art, hE]
  have hbody := body_skip env false [canonical]
    (rest.map fun _ => [canonical]) canonical hI hHead2 hskip
  refine ⟨classify_skipCompliant_of env canonical _ hE hD hV hB hIl,
    ?_, ?_, ?_, ?_, ?_⟩
  · rw [process_result_cons, hbody]; simp
  · rw [process_trace_cons, hbody]; rfl
  · rw [process_trace_cons, hbody]; rfl
  · rw [process_trace_cons, hbody]; rfl
  · rw [process_tracks_cons, hbody]

/-- Witness for C7 at a concrete input: after a first full run of the
two-track 1200×1200-progressive album, the second run classifies it
compliant and skips both tracks. -/
theorem C7_witness :
    classify envOk
      (process_album_directory envOk false [[imgBig], [imgBig]]).tracks =
      Decision.skipCompliant ∧
    (process_album_directory envOk false
      (process_album_directory envOk false [[imgBig], [imgBig]]).tracks).result
      = some (0, 2, 0) := by
  have h := C7_idempotent_second_run_skips envOk [imgBig] [[imgBig]]
    imgBig imgCanonical rfl rfl rfl (by decide) rfl (fun _ => rfl)
    (fun _ => rfl) rfl rfl (by decide) rfl
  exact ⟨h.1, h.2.1⟩

/-- Counterexample to C5 as stated: a one-track album with no embedded
art is classified `Skip-NoArt`, but the pipeline of
`shrink-flac-embedded-art.py` writes no line to any manual-attention
log (the claim requires one line for its track). -/
theorem C5_counterexample :
    classify envOk [[]] = Decision.skipNoArt ∧
    (process_album_directory envOk false [[]]).result = some (0, 1, 0) ∧
    logLines (process_album_directory envOk false [[]]).trace = [] := by
  decide

/-- C5 (amended): the shrink pipeline writes no manual-attention log at
all — a `Skip-NoArt` album only has its tracks counted as skipped.  The
manual-attention log of the toolset is written by the separate
`embed-art.py` utility: when no cover-image candidate exists in the
album directory, it writes exactly the path of each track lacking
embedded art, one line per track. -/
theorem C5_no_shrink_log_embed_art_logs :
    (∀ (env : Env) (dryRun : Bool) (tracks : List (List Image)),
      logLines (process_album_directory env dryRun tracks).trace = []) ∧
    (∀ (env : EaEnv) (flacs dirFiles : List String),
      (∀ c ∈ cover_candidates, c ∉ dirFiles) →
      ea_process_album_directory env flacs dirFiles =
        (flacs.enum.filter fun p => !env.hasArt p.1).map Prod.snd) := by
  constructor
  · intro env dryRun tracks
    cases tracks with
    | nil => rfl
    | cons t0 rest =>
      rw [process_trace_cons]
      simp only [process_album_body]
      split
      · simp
      · split
        · simp
        · split
          · simp
          · split
            · simp
            · split
              · simp
              · split
                · simp
                · split
                  · simp
                  · simp [embed_tracks_logLines]
  · intro env flacs dirFiles hc
    have hfind :
        cover_candidates.find? (fun c => dirFiles.contains c) =
          Option.none := by
      apply List.find?_eq_none.mpr
      intro c hcmem
      simpa using hc c hcmem
    simp only [ea_process_album_directory, hfind]
    split
    · rename_i hf
      rw [List.isEmpty_iff.mp hf]
      simp
    · split
      · rename_i hw
        rw [List.isEmpty_iff.mp hw]
        simp [List.isEmpty_iff.mp hw]
      · rfl

/-- Witness for the amended C5 at concrete inputs: a processed album
writes no log line in the shrink pipeline, and `embed-art.py` logs the
single artless track of a coverless album. -/
theorem C5_witness :
    logLines (process_album_directory envOk false [[imgBig]]).trace = [] ∧
    ea_process_album_directory ⟨fun _ => false, fun _ => true⟩
      ["Album/01.flac"] ["notes.txt"] = ["Album/01.flac"] := by
  refine ⟨C5_no_shrink_log_embed_art_logs.1 envOk false [[imgBig]], ?_⟩
  have h := C5_no_shrink_log_embed_art_logs.2
    ⟨fun _ => false, fun _ => true⟩ ["Album/01.flac"] ["notes.txt"]
    (by decide)
  rw [h]
  rfl

/-- C8 (code bug): the scanner comment says "case-insensitive", and the
spec's contract says any casing of the extension is matched, but the
code matches only the three literal casings `*.flac`, `*.FLAC`,
`*.Flac`: the file `x.fLaC` has the `.flac` extension case-insensitively
yet is never discovered.  Moreover the per-album working set is built
from `*.flac` and `*.FLAC` only, so the discovered track `a.Flac`
belongs to no album's working set, violating "every discovered track is
a member of exactly one album's working set". -/
theorem C8_casing_divergence :
    has_flac_ext_ci "x.fLaC" = true ∧
    has_flac_ext_ci "a.Flac" = true ∧
    find_flac_files [⟨"AlbumA", "x.fLaC"⟩, ⟨"AlbumB", "a.Flac"⟩] =
      [⟨"AlbumB", "a.Flac"⟩] ∧
    album_dirs [⟨"AlbumA", "x.fLaC"⟩, ⟨"AlbumB", "a.Flac"⟩] = ["AlbumB"] ∧
    album_flac_files [⟨"AlbumA", "x.fLaC"⟩, ⟨"AlbumB", "a.Flac"⟩] "AlbumB"
      = [] := by
  decide

end MLT
